import Mathlib

/-!
Shallow embedding of the `shed` build-time generator (`build.rs`) and the
components it calls, for checking the natural-language specification
against the code.

The orchestrator `main` in `build.rs` is embedded as `Shed.mainBuild`:
a pure function from an explicit build environment (`Shed.World`) to a
`Shed.BuildOutcome` recording the returned result, the `DEMON_VERSION`
build constant, the final contents of `OUT_DIR`, the emission log, the
CLI description consumed by each emitter call, and the `cargo:` lines
printed by the orchestrator.

External collaborators that are not in the sources are modelled from the
spec and marked as such in their doc comments:
`rlib::util::bs::version::generate_cargo_keys` (Version Resolver),
`rlib::util::cli::comp_gen::generate_to` (Completion Emitter), and
`build_cli` (`src/cli.rs`, pulled in by `include!`, absent from the
source tree).
-/

set_option autoImplicit false

namespace Shed

/-- An operating-system environment value: either valid Unicode (readable by
`std::env::var`) or non-Unicode data (readable only by `std::env::var_os`,
kept opaque here via a tag). -/
inductive OsStr where
  | unicode (s : String)
  | nonUnicode (tag : Nat)
deriving DecidableEq, Repr

/-- The error cases of `std::env::var` (`std::env::VarError`): the variable is
absent, or present but not valid Unicode. -/
inductive VarError where
  | notPresent
  | notUnicode
deriving DecidableEq, Repr

/-- `std::env::var(name)`: `Ok` exactly when the variable is present and
Unicode. -/
def envVar (env : String → Option OsStr) (name : String) : Except VarError String :=
  match env name with
  | none => .error .notPresent
  | some (.unicode s) => .ok s
  | some (.nonUnicode _) => .error .notUnicode

/-- The three shell dialects for which `build.rs` generates completions, in
their source names (`Bash`, `Zsh`, `PowerShell`). -/
inductive ShellDialect where
  | Bash
  | Zsh
  | PowerShell
deriving DecidableEq, Repr

/-- A flag of one command node: long name, optional short form, value arity,
help text (spec §3, CliDescription). -/
structure CliFlag where
  name : String
  short : Option Char
  takesValue : Bool
  help : String
deriving DecidableEq, Repr

/-- The CLI description: an immutable tree; each node has a name, a set of
flags and an ordered sequence of child subcommand nodes (spec §3). -/
inductive CliDescription where
  | node (name : String) (flags : List CliFlag) (children : List CliDescription)

/-- State of the optional version-control repository at build time:
`revInfo = some (rev, dirty)` when the revision lookup succeeds with short
identifier `rev` and working-tree dirtiness `dirty`; `none` when any lookup
step fails (no commits, I/O error, ...). -/
structure RepoState where
  revInfo : Option (String × Bool)

/-- The build environment one invocation of the orchestrator sees:
the process environment, the optional version-control repository at the
working directory (`none` = no repository found), whether writing each
dialect's completion file would succeed (I/O oracle for `OUT_DIR`), and the
files already present in `OUT_DIR` (name, content). -/
structure World where
  env : String → Option OsStr
  repo : Option RepoState
  emitOk : ShellDialect → Bool
  fs : List (String × String)

/-- Modelled from the spec (§4.1): the pure core of the Version Resolver.
Concatenates `declared` with the short revision identifier (and a dirty
suffix when the tree is modified) when a repository is present and the
lookup succeeds; falls back to `declared` alone otherwise. This path never
fails. -/
def resolve_version (declared : String) (repo : Option RepoState) : String :=
  match repo with
  | none => declared
  | some r =>
    match r.revInfo with
    | none => declared
    | some (rev, dirty) => declared ++ "-" ++ rev ++ (if dirty then "-dirty" else "")

/-- Modelled from the spec (§4.1): `rlib::util::bs::version::generate_cargo_keys`
is not in the sources. It reads the declared package version from the build
environment (`CARGO_PKG_VERSION`, supplied by the invoking build system) and
resolves it against the repository; per §4.3 Step 1, the only error it can
surface is an environment read failure. On success the result is registered
as the `DEMON_VERSION` build constant by the caller's outcome. -/
def generate_cargo_keys (env : String → Option OsStr) (repo : Option RepoState) :
    Except VarError String :=
  match envVar env "CARGO_PKG_VERSION" with
  | .error e => .error e
  | .ok declared => .ok (resolve_version declared repo)

/-- Modelled from the spec (§4.2): each dialect's output file-naming
convention for a program named `prog`. -/
def fileName (d : ShellDialect) (prog : String) : String :=
  match d with
  | .Bash => prog ++ ".bash"
  | .Zsh => "_" ++ prog
  | .PowerShell => "_" ++ prog ++ ".ps1"

/-- Dialect-specific header line of a completion script. -/
def header (d : ShellDialect) : String :=
  match d with
  | .Bash => "# bash completion for "
  | .Zsh => "#compdef "
  | .PowerShell => "# powershell completion for "

/-- The completion token of one flag. -/
def flagToken (f : CliFlag) : String :=
  "--" ++ f.name

mutual

/-- Modelled from the spec (§4.2): render one command node — its name, its
flag tokens and, recursively, its subcommands — as dialect-independent
completion data wrapped by the dialect header in `render`. -/
def renderNode (t : CliDescription) : String :=
  match t with
  | .node n fs cs => "[" ++ n ++ " " ++ String.intercalate " " (fs.map flagToken) ++ renderForest cs ++ "]"

/-- Render an ordered sequence of subcommand nodes. -/
def renderForest (ts : List CliDescription) : String :=
  match ts with
  | [] => ""
  | t :: ts => " " ++ renderNode t ++ renderForest ts

end

/-- Modelled from the spec (§4.2): the full completion script for dialect `d`
is the dialect header followed by the rendered command tree; a pure function
of `(d, cli)`. -/
def render (d : ShellDialect) (cli : CliDescription) : String :=
  header d ++ renderNode cli

/-- Duplicate-freedom of a list of short-flag characters. -/
def dupFree (cs : List Char) : Bool :=
  match cs with
  | [] => true
  | c :: cs => (!cs.contains c) && dupFree cs

mutual

/-- Modelled from the spec (§4.2): a CLI tree is malformed when some command
node declares two flags with the same short name; such trees make emission
fail with `EmitError.invalidDescription` rather than being silently
skipped. -/
def wellFormed (t : CliDescription) : Bool :=
  match t with
  | .node _ fs cs => dupFree (fs.filterMap CliFlag.short) && wfForest cs

/-- `wellFormed` on every node of a forest. -/
def wfForest (ts : List CliDescription) : Bool :=
  match ts with
  | [] => true
  | t :: ts => wellFormed t && wfForest ts

end

/-- Modelled from the spec (§4.2): the Completion Emitter's error cases —
the file cannot be created or written, or the CLI tree is malformed. -/
inductive EmitError where
  | io (d : ShellDialect)
  | invalidDescription
deriving DecidableEq, Repr

/-- Modelled from the spec (§4.2): one call of the Completion Emitter
(`rlib::util::cli::comp_gen::generate_to`, not in the sources). Returns the
name and content of the file it writes into `OUT_DIR`, or the first
applicable error; `emitOk` is the I/O oracle of the build's world. -/
def generate_to (emitOk : ShellDialect → Bool) (d : ShellDialect)
    (cli : CliDescription) (prog : String) : Except EmitError (String × String) :=
  if wellFormed cli then
    if emitOk d then .ok (fileName d prog, render d cli)
    else .error (.io d)
  else .error .invalidDescription

/-- Modelled from the spec (§2, §6): `build_cli` comes from `src/cli.rs`,
pulled into `build.rs` by `include!` but absent from the source tree; the
spec treats the command set as an opaque, externally supplied tree built by
a zero-argument constructor. A concrete representative tree for the program
`shed`. -/
def build_cli : CliDescription :=
  .node "shed"
    [⟨"help", some 'h', false, "print help"⟩,
     ⟨"version", some 'V', false, "print version"⟩]
    [.node "status" [⟨"verbose", some 'v', false, "verbose output"⟩] [],
     .node "pack" [⟨"out", some 'o', true, "output path"⟩] []]

/-- The error taxonomy of one orchestrator run (spec §7): version resolution
failed, a required environment variable was unreadable, or a completion
script could not be emitted. -/
inductive BuildError where
  | versionResolution (e : VarError)
  | environment (var : String) (e : VarError)
  | emission (e : EmitError)
deriving DecidableEq, Repr

/-- Write `content` under `name`, replacing any existing file of that name
(file writes overwrite). -/
def overwrite (fs : List (String × String)) (name content : String) :
    List (String × String) :=
  match fs with
  | [] => [(name, content)]
  | (g, d) :: rest =>
    if g = name then (name, content) :: rest else (g, d) :: overwrite rest name content

/-- Look a file up by name in an `OUT_DIR` content listing. -/
def findFile (fs : List (String × String)) (name : String) : Option String :=
  match fs with
  | [] => none
  | (g, d) :: rest => if g = name then some d else findFile rest name

/-- Everything one orchestrator invocation produces: the value `main`
returns, the `DEMON_VERSION` constant registered by the Version Resolver
(`none` when resolution failed), the final contents of `OUT_DIR`, the log
of completion files written by this run (dialect, file name, content), the
CLI description consumed by each Completion Emitter call in call order, and
the `cargo:` directive lines printed by the orchestrator. -/
structure BuildOutcome where
  result : Except BuildError Unit
  demonVersion : Option String
  fs : List (String × String)
  written : List (ShellDialect × String × String)
  cliTrace : List (ShellDialect × CliDescription)
  directives : List String

/-- The build-system directive printed at the end of a successful run of
`main` (`build.rs` line 31). -/
def rerunDirective : String :=
  "cargo:rerun-if-changed=build.rs"

/-- Embedding of `fn main()` of `build.rs`. Step by step, as in the source:
call `generate_cargo_keys()`; read `PROFILE` with `env::var` and propagate
its error with `?`; when the profile equals `"release"`, read `OUT_DIR`
with `env::var_os(..).unwrap()` — the `unwrap` panic on an absent `OUT_DIR`
is modelled as a fatal `BuildError.environment` outcome (both abort the
build with nothing further written) — build the CLI description once and
call `generate_to` for Bash, Zsh and PowerShell in that order, propagating
the first failure with `?`; finally print the rerun directive and return
`Ok(())`. A `?` return or panic skips everything after it, including the
directive print. -/
def mainBuild (w : World) : BuildOutcome :=
  match generate_cargo_keys w.env w.repo with
  | .error e =>
      { result := .error (.versionResolution e), demonVersion := none,
        fs := w.fs, written := [], cliTrace := [], directives := [] }
  | .ok v =>
    match envVar w.env "PROFILE" with
    | .error e =>
        { result := .error (.environment "PROFILE" e), demonVersion := some v,
          fs := w.fs, written := [], cliTrace := [], directives := [] }
    | .ok p =>
      if p = "release" then
        match w.env "OUT_DIR" with
        | none =>
            { result := .error (.environment "OUT_DIR" .notPresent), demonVersion := some v,
              fs := w.fs, written := [], cliTrace := [], directives := [] }
        | some _o =>
          let cli := build_cli
          match generate_to w.emitOk .Bash cli "shed" with
          | .error e =>
              { result := .error (.emission e), demonVersion := some v,
                fs := w.fs, written := [], cliTrace := [(.Bash, cli)], directives := [] }
          | .ok (f₁, c₁) =>
            match generate_to w.emitOk .Zsh cli "shed" with
            | .error e =>
                { result := .error (.emission e), demonVersion := some v,
                  fs := overwrite w.fs f₁ c₁, written := [(.Bash, f₁, c₁)],
                  cliTrace := [(.Bash, cli), (.Zsh, cli)], directives := [] }
            | .ok (f₂, c₂) =>
              match generate_to w.emitOk .PowerShell cli "shed" with
              | .error e =>
                  { result := .error (.emission e), demonVersion := some v,
                    fs := overwrite (overwrite w.fs f₁ c₁) f₂ c₂,
                    written := [(.Bash, f₁, c₁), (.Zsh, f₂, c₂)],
                    cliTrace := [(.Bash, cli), (.Zsh, cli), (.PowerShell, cli)],
                    directives := [] }
              | .ok (f₃, c₃) =>
                  { result := .ok (), demonVersion := some v,
                    fs := overwrite (overwrite (overwrite w.fs f₁ c₁) f₂ c₂) f₃ c₃,
                    written := [(.Bash, f₁, c₁), (.Zsh, f₂, c₂), (.PowerShell, f₃, c₃)],
                    cliTrace := [(.Bash, cli), (.Zsh, cli), (.PowerShell, cli)],
                    directives := [rerunDirective] }
      else
        { result := .ok (), demonVersion := some v, fs := w.fs, written := [],
          cliTrace := [], directives := [rerunDirective] }

/-- A release build environment: all required variables present, a clean
repository at short revision `abc123d`, all emissions succeed, `OUT_DIR`
initially empty. -/
def wRelease : World :=
  { env := fun n =>
      if n = "CARGO_PKG_VERSION" then some (.unicode "1.2.3")
      else if n = "PROFILE" then some (.unicode "release")
      else if n = "OUT_DIR" then some (.unicode "/tmp/out")
      else none,
    repo := some ⟨some ("abc123d", false)⟩, emitOk := fun _ => true, fs := [] }

/-- As `wRelease`, but with an unrelated file already present in `OUT_DIR`. -/
def wReleaseJunk : World :=
  { wRelease with fs := [("junk.txt", "leftover")] }

/-- A debug build environment: `PROFILE="debug"`, no repository. -/
def wDebug : World :=
  { env := fun n =>
      if n = "CARGO_PKG_VERSION" then some (.unicode "1.2.3")
      else if n = "PROFILE" then some (.unicode "debug")
      else none,
    repo := none, emitOk := fun _ => true, fs := [] }

/-- An environment with `PROFILE` entirely absent. -/
def wNoProfile : World :=
  { env := fun n => if n = "CARGO_PKG_VERSION" then some (.unicode "1.2.3") else none,
    repo := none, emitOk := fun _ => true, fs := [] }

/-- A release environment with `OUT_DIR` absent. -/
def wNoOutDir : World :=
  { env := fun n =>
      if n = "CARGO_PKG_VERSION" then some (.unicode "1.2.3")
      else if n = "PROFILE" then some (.unicode "release")
      else none,
    repo := none, emitOk := fun _ => true, fs := [] }

/-- An environment in which the declared package version is unreadable. -/
def wNoVer : World :=
  { env := fun _ => none, repo := none, emitOk := fun _ => true, fs := [] }

/-- An environment whose `PROFILE` value is present but not valid Unicode. -/
def wBadProfile : World :=
  { env := fun n =>
      if n = "CARGO_PKG_VERSION" then some (.unicode "1.2.3")
      else if n = "PROFILE" then some (.nonUnicode 0)
      else none,
    repo := none, emitOk := fun _ => true, fs := [] }

theorem wellFormed_build_cli : wellFormed build_cli = true := by decide

theorem findFile_overwrite_self (fs : List (String × String)) (n c : String) :
    findFile (overwrite fs n c) n = some c := by
  induction fs with
  | nil => simp [overwrite, findFile]
  | cons hd tl ih =>
    obtain ⟨g, d⟩ := hd
    by_cases h : g = n <;> simp [overwrite, findFile, h, ih]

theorem findFile_overwrite_ne (fs : List (String × String)) (n c m : String)
    (h : m ≠ n) : findFile (overwrite fs n c) m = findFile fs m := by
  have h' : ¬ (n = m) := fun hh => h hh.symm
  induction fs with
  | nil => simp [overwrite, findFile, h']
  | cons hd tl ih =>
    obtain ⟨g, d⟩ := hd
    by_cases hg : g = n
    · subst hg
      simp [overwrite, findFile, h']
    · simp only [overwrite, if_neg hg, findFile]
      by_cases hm : g = m <;> simp [hm, ih]

theorem overwrite_overwrite_self (fs : List (String × String)) (n c : String) :
    overwrite (overwrite fs n c) n c = overwrite fs n c := by
  induction fs with
  | nil => simp [overwrite]
  | cons hd tl ih =>
    obtain ⟨g, d⟩ := hd
    by_cases h : g = n <;> simp [overwrite, h, ih]

theorem render_length_pos (d : ShellDialect) (cli : CliDescription) :
    0 < (render d cli).length := by
  have h : 0 < (header d).length := by cases d <;> decide
  simp only [render, String.length_append]
  omega

/-- C1: for every build invocation that completes successfully, the number of
completion artifacts produced is either zero or three, never one or two; a
run that wrote a partial set (one or two files) has already failed, so no
partial set is observable to the packaging steps that run only after a
successful build. -/
theorem C1_completions_all_or_nothing (w : World)
    (h : (mainBuild w).result = .ok ()) :
    (mainBuild w).written.length = 0 ∨ (mainBuild w).written.length = 3 := by
  rcases hg : generate_cargo_keys w.env w.repo with e | v
  · simp [mainBuild, hg] at h
  rcases hp : envVar w.env "PROFILE" with e | p
  · simp [mainBuild, hg, hp] at h
  by_cases hr : p = "release"
  · rcases ho : w.env "OUT_DIR" with _ | o
    · simp [mainBuild, hg, hp, hr, ho] at h
    rcases h1 : generate_to w.emitOk .Bash build_cli "shed" with e | ⟨f₁, c₁⟩
    · simp [mainBuild, hg, hp, hr, ho, h1] at h
    rcases h2 : generate_to w.emitOk .Zsh build_cli "shed" with e | ⟨f₂, c₂⟩
    · simp [mainBuild, hg, hp, hr, ho, h1, h2] at h
    rcases h3 : generate_to w.emitOk .PowerShell build_cli "shed" with e | ⟨f₃, c₃⟩
    · simp [mainBuild, hg, hp, hr, ho, h1, h2, h3] at h
    right
    simp [mainBuild, hg, hp, hr, ho, h1, h2, h3]
  · left
    simp [mainBuild, hg, hp, hr]

theorem C1_witness :
    (mainBuild wRelease).written.length = 0 ∨ (mainBuild wRelease).written.length = 3 :=
  C1_completions_all_or_nothing wRelease rfl

/-- C3: whenever `PROFILE` is present, Unicode and different from
`"release"`, the completion step is skipped entirely — zero files written,
`OUT_DIR` untouched, no emitter call — while the Version Resolver still runs
and registers `DEMON_VERSION`. -/
theorem C3_non_release_skips (w : World) (v p : String)
    (hv : w.env "CARGO_PKG_VERSION" = some (.unicode v))
    (hp : w.env "PROFILE" = some (.unicode p)) (hne : p ≠ "release") :
    (mainBuild w).result = .ok () ∧ (mainBuild w).written = [] ∧
    (mainBuild w).fs = w.fs ∧ (mainBuild w).cliTrace = [] ∧
    (mainBuild w).demonVersion = some (resolve_version v w.repo) := by
  simp [mainBuild, generate_cargo_keys, envVar, hv, hp, hne]

theorem C3_witness : (mainBuild wDebug).demonVersion = some "1.2.3" :=
  (C3_non_release_skips wDebug "1.2.3" "debug" rfl rfl (by decide)).2.2.2.2

/-- C4: a missing required environment variable — `PROFILE` in any run, or
`OUT_DIR` when the profile is `"release"` — makes the run fail fatally with
an `Environment` error, with zero completion files written and `OUT_DIR`
untouched. (The `OUT_DIR` case is an `unwrap` panic in the source, modelled
as the fatal `Environment` outcome; see `mainBuild`.) -/
theorem C4_missing_env_fatal (w : World) (v : String)
    (hv : w.env "CARGO_PKG_VERSION" = some (.unicode v)) :
    (w.env "PROFILE" = none →
      (mainBuild w).result = .error (.environment "PROFILE" .notPresent) ∧
      (mainBuild w).written = [] ∧ (mainBuild w).fs = w.fs) ∧
    (w.env "PROFILE" = some (.unicode "release") → w.env "OUT_DIR" = none →
      (mainBuild w).result = .error (.environment "OUT_DIR" .notPresent) ∧
      (mainBuild w).written = [] ∧ (mainBuild w).fs = w.fs) := by
  constructor
  · intro hp
    simp [mainBuild, generate_cargo_keys, envVar, hv, hp]
  · intro hp ho
    simp [mainBuild, generate_cargo_keys, envVar, hv, hp, ho]

theorem C4_witness :
    (mainBuild wNoProfile).result = .error (.environment "PROFILE" .notPresent) :=
  ((C4_missing_env_fatal wNoProfile "1.2.3" rfl).1 rfl).1

/-- C5: the Version Resolver runs first on every invocation — the
`DEMON_VERSION` outcome is exactly the resolver's result, whatever the
profile is, even when `PROFILE` is absent — and a resolver error is
propagated to the caller as `BuildError.versionResolution`, before the
profile is even consulted. -/
theorem C5_resolver_first_and_propagated (w : World) :
    (mainBuild w).demonVersion = (generate_cargo_keys w.env w.repo).toOption ∧
    (∀ e, generate_cargo_keys w.env w.repo = .error e →
      (mainBuild w).result = .error (.versionResolution e) ∧
      (mainBuild w).written = [] ∧ (mainBuild w).fs = w.fs) := by
  constructor
  · rcases hg : generate_cargo_keys w.env w.repo with e | v
    · simp [mainBuild, hg, Except.toOption]
    rcases hp : envVar w.env "PROFILE" with e | p
    · simp [mainBuild, hg, hp, Except.toOption]
    by_cases hr : p = "release"
    · rcases ho : w.env "OUT_DIR" with _ | o
      · simp [mainBuild, hg, hp, hr, ho, Except.toOption]
      rcases h1 : generate_to w.emitOk .Bash build_cli "shed" with e | ⟨f₁, c₁⟩
      · simp [mainBuild, hg, hp, hr, ho, h1, Except.toOption]
      rcases h2 : generate_to w.emitOk .Zsh build_cli "shed" with e | ⟨f₂, c₂⟩
      · simp [mainBuild, hg, hp, hr, ho, h1, h2, Except.toOption]
      rcases h3 : generate_to w.emitOk .PowerShell build_cli "shed" with e | ⟨f₃, c₃⟩ <;>
        simp [mainBuild, hg, hp, hr, ho, h1, h2, h3, Except.toOption]
    · simp [mainBuild, hg, hp, hr, Except.toOption]
  · intro e hg
    simp [mainBuild, hg]

theorem C5_witness :
    (mainBuild wNoVer).result = .error (.versionResolution .notPresent) :=
  ((C5_resolver_first_and_propagated wNoVer).2 .notPresent rfl).1

/-- C6: `resolve_version` always returns a string that starts with the
declared version, returns it unchanged when no repository is present or
when the version-control lookup fails, and (being a total function) never
fails the build. -/
theorem C6_resolver_conservative (declared : String) (repo : Option RepoState) :
    (∃ rest, resolve_version declared repo = declared ++ rest) ∧
    resolve_version declared none = declared ∧
    (∀ r : RepoState, r.revInfo = none → resolve_version declared (some r) = declared) := by
  refine ⟨?_, rfl, ?_⟩
  · rcases repo with _ | r
    · exact ⟨"", by simp [resolve_version]⟩
    rcases hr : r.revInfo with _ | ⟨rev, dirty⟩
    · exact ⟨"", by simp [resolve_version, hr]⟩
    · exact ⟨"-" ++ rev ++ (if dirty then "-dirty" else ""),
        by simp [resolve_version, hr, String.append_assoc]⟩
  · intro r hr
    simp [resolve_version, hr]

theorem C6_witness : resolve_version "1.2.3" none = "1.2.3" :=
  (C6_resolver_conservative "1.2.3" none).2.1

/-- C9, counterexample: the claim says the rerun directive is emitted on
every invocation, but an invocation with `PROFILE` absent returns before
reaching the directive print and emits no directive at all. -/
theorem C9_counterexample :
    (mainBuild wNoProfile).directives = [] ∧
    ¬ (rerunDirective ∈ (mainBuild wNoProfile).directives) := by
  exact ⟨rfl, by decide⟩

/-- C9, amended: on every invocation that completes without a fatal error,
the orchestrator emits exactly the build-system directive declaring
`build.rs` as a rebuild dependency; failing invocations return (or panic)
before the directive print. -/
theorem C9_amended_rerun_on_success (w : World)
    (h : (mainBuild w).result = .ok ()) :
    (mainBuild w).directives = [rerunDirective] := by
  rcases hg : generate_cargo_keys w.env w.repo with e | v
  · simp [mainBuild, hg] at h
  rcases hp : envVar w.env "PROFILE" with e | p
  · simp [mainBuild, hg, hp] at h
  by_cases hr : p = "release"
  · rcases ho : w.env "OUT_DIR" with _ | o
    · simp [mainBuild, hg, hp, hr, ho] at h
    rcases h1 : generate_to w.emitOk .Bash build_cli "shed" with e | ⟨f₁, c₁⟩
    · simp [mainBuild, hg, hp, hr, ho, h1] at h
    rcases h2 : generate_to w.emitOk .Zsh build_cli "shed" with e | ⟨f₂, c₂⟩
    · simp [mainBuild, hg, hp, hr, ho, h1, h2] at h
    rcases h3 : generate_to w.emitOk .PowerShell build_cli "shed" with e | ⟨f₃, c₃⟩
    · simp [mainBuild, hg, hp, hr, ho, h1, h2, h3] at h
    simp [mainBuild, hg, hp, hr, ho, h1, h2, h3]
  · simp [mainBuild, hg, hp, hr]

theorem C9_witness : (mainBuild wDebug).directives = [rerunDirective] :=
  C9_amended_rerun_on_success wDebug rfl

/-- C10: a `PROFILE` value that is present but not valid Unicode makes
`env::var("PROFILE")?` propagate a `NotUnicode` error, so the run fails
fatally rather than being treated as a non-release profile, and no
completion files are written. -/
theorem C10_non_unicode_profile_fatal (w : World) (v : String) (t : Nat)
    (hv : w.env "CARGO_PKG_VERSION" = some (.unicode v))
    (hp : w.env "PROFILE" = some (.nonUnicode t)) :
    (mainBuild w).result = .error (.environment "PROFILE" .notUnicode) ∧
    (mainBuild w).written = [] ∧ (mainBuild w).fs = w.fs := by
  simp [mainBuild, generate_cargo_keys, envVar, hv, hp]

theorem C10_witness :
    (mainBuild wBadProfile).result = .error (.environment "PROFILE" .notUnicode) :=
  (C10_non_unicode_profile_fatal wBadProfile "1.2.3" 0 rfl rfl).1

/-- C2: with `PROFILE="release"` (and the environment readable), the
orchestrator builds the CLI description and calls the Completion Emitter in
the fixed order Bash, Zsh, PowerShell; when all three succeed it produces
exactly those three files in `OUT_DIR` — distinctly named, each non-empty —
and it aborts on the first emission failure, propagating
`BuildError.emission` with nothing further written. -/
theorem C2_release_pipeline (w : World) (v : String) (o : OsStr)
    (hv : w.env "CARGO_PKG_VERSION" = some (.unicode v))
    (hp : w.env "PROFILE" = some (.unicode "release"))
    (ho : w.env "OUT_DIR" = some o) :
    (w.emitOk .Bash = true → w.emitOk .Zsh = true → w.emitOk .PowerShell = true →
      (mainBuild w).result = .ok () ∧
      (mainBuild w).cliTrace.map Prod.fst = [.Bash, .Zsh, .PowerShell] ∧
      (mainBuild w).written =
        [(.Bash, fileName .Bash "shed", render .Bash build_cli),
         (.Zsh, fileName .Zsh "shed", render .Zsh build_cli),
         (.PowerShell, fileName .PowerShell "shed", render .PowerShell build_cli)] ∧
      findFile (mainBuild w).fs (fileName .Bash "shed") = some (render .Bash build_cli) ∧
      findFile (mainBuild w).fs (fileName .Zsh "shed") = some (render .Zsh build_cli) ∧
      findFile (mainBuild w).fs (fileName .PowerShell "shed") = some (render .PowerShell build_cli) ∧
      fileName .Bash "shed" ≠ fileName .Zsh "shed" ∧
      fileName .Bash "shed" ≠ fileName .PowerShell "shed" ∧
      fileName .Zsh "shed" ≠ fileName .PowerShell "shed" ∧
      0 < (render .Bash build_cli).length ∧
      0 < (render .Zsh build_cli).length ∧
      0 < (render .PowerShell build_cli).length) ∧
    (w.emitOk .Bash = false →
      (mainBuild w).result = .error (.emission (.io .Bash)) ∧
      (mainBuild w).written = []) ∧
    (w.emitOk .Bash = true → w.emitOk .Zsh = false →
      (mainBuild w).result = .error (.emission (.io .Zsh)) ∧
      (mainBuild w).written.length = 1) ∧
    (w.emitOk .Bash = true → w.emitOk .Zsh = true → w.emitOk .PowerShell = false →
      (mainBuild w).result = .error (.emission (.io .PowerShell)) ∧
      (mainBuild w).written.length = 2) := by
  have hbz : fileName .Bash "shed" ≠ fileName .Zsh "shed" := by decide
  have hbp : fileName .Bash "shed" ≠ fileName .PowerShell "shed" := by decide
  have hzp : fileName .Zsh "shed" ≠ fileName .PowerShell "shed" := by decide
  refine ⟨?_, ?_, ?_, ?_⟩
  · intro hb hz hps
    have hfs : (mainBuild w).fs =
        overwrite (overwrite (overwrite w.fs
          (fileName .Bash "shed") (render .Bash build_cli))
          (fileName .Zsh "shed") (render .Zsh build_cli))
          (fileName .PowerShell "shed") (render .PowerShell build_cli) := by
      simp [mainBuild, generate_cargo_keys, envVar, hv, hp, ho, generate_to,
        wellFormed_build_cli, hb, hz, hps]
    refine ⟨?_, ?_, ?_, ?_, ?_, ?_, hbz, hbp, hzp,
      render_length_pos _ _, render_length_pos _ _, render_length_pos _ _⟩
    · simp [mainBuild, generate_cargo_keys, envVar, hv, hp, ho, generate_to,
        wellFormed_build_cli, hb, hz, hps]
    · simp [mainBuild, generate_cargo_keys, envVar, hv, hp, ho, generate_to,
        wellFormed_build_cli, hb, hz, hps]
    · simp [mainBuild, generate_cargo_keys, envVar, hv, hp, ho, generate_to,
        wellFormed_build_cli, hb, hz, hps]
    · rw [hfs, findFile_overwrite_ne _ _ _ _ hbp, findFile_overwrite_ne _ _ _ _ hbz,
        findFile_overwrite_self]
    · rw [hfs, findFile_overwrite_ne _ _ _ _ hzp, findFile_overwrite_self]
    · rw [hfs, findFile_overwrite_self]
  · intro hb
    simp [mainBuild, generate_cargo_keys, envVar, hv, hp, ho, generate_to,
      wellFormed_build_cli, hb]
  · intro hb hz
    simp [mainBuild, generate_cargo_keys, envVar, hv, hp, ho, generate_to,
      wellFormed_build_cli, hb, hz]
  · intro hb hz hps
    simp [mainBuild, generate_cargo_keys, envVar, hv, hp, ho, generate_to,
      wellFormed_build_cli, hb, hz, hps]

theorem C2_witness : (mainBuild wRelease).result = Except.ok () :=
  (((C2_release_pipeline wRelease "1.2.3" (OsStr.unicode "/tmp/out")
    rfl rfl rfl).1) rfl rfl rfl).1

/-- C7: the orchestrator is deterministic — two invocations that agree on
the environment, the repository state and the I/O behaviour of emission
produce the same result, the same `DEMON_VERSION`, the same written files
(byte-identical) and the same directives, whatever was previously in
`OUT_DIR` — and re-applying an emission's write for the same
`(dialect, cli, out_dir)` overwrites the prior file with byte-identical
content, leaving the directory unchanged. -/
theorem C7_deterministic_idempotent :
    (∀ w₁ w₂ : World, w₁.env = w₂.env → w₁.repo = w₂.repo → w₁.emitOk = w₂.emitOk →
      (mainBuild w₁).result = (mainBuild w₂).result ∧
      (mainBuild w₁).demonVersion = (mainBuild w₂).demonVersion ∧
      (mainBuild w₁).written = (mainBuild w₂).written ∧
      (mainBuild w₁).cliTrace = (mainBuild w₂).cliTrace ∧
      (mainBuild w₁).directives = (mainBuild w₂).directives) ∧
    (∀ (ok : ShellDialect → Bool) (d : ShellDialect) (cli : CliDescription)
        (prog f c : String) (fs : List (String × String)),
      generate_to ok d cli prog = .ok (f, c) →
      overwrite (overwrite fs f c) f c = overwrite fs f c ∧
      findFile (overwrite fs f c) f = some c) := by
  constructor
  · rintro ⟨e₁, r₁, k₁, fs₁⟩ ⟨e₂, r₂, k₂, fs₂⟩ he hr hk
    simp only at he hr hk
    subst he; subst hr; subst hk
    rcases hg : generate_cargo_keys e₁ r₁ with e | v
    · simp [mainBuild, hg]
    rcases hp : envVar e₁ "PROFILE" with e | p
    · simp [mainBuild, hg, hp]
    by_cases hrel : p = "release"
    · rcases ho : e₁ "OUT_DIR" with _ | o
      · simp [mainBuild, hg, hp, hrel, ho]
      rcases h1 : generate_to k₁ .Bash build_cli "shed" with e | ⟨f₁, c₁⟩
      · simp [mainBuild, hg, hp, hrel, ho, h1]
      rcases h2 : generate_to k₁ .Zsh build_cli "shed" with e | ⟨f₂, c₂⟩
      · simp [mainBuild, hg, hp, hrel, ho, h1, h2]
      rcases h3 : generate_to k₁ .PowerShell build_cli "shed" with e | ⟨f₃, c₃⟩ <;>
        simp [mainBuild, hg, hp, hrel, ho, h1, h2, h3]
    · simp [mainBuild, hg, hp, hrel]
  · intro ok d cli prog f c fs hgen
    exact ⟨overwrite_overwrite_self fs f c, findFile_overwrite_self fs f c⟩

theorem C7_witness : (mainBuild wReleaseJunk).written = (mainBuild wRelease).written :=
  (C7_deterministic_idempotent.1 wReleaseJunk wRelease rfl rfl rfl).2.2.1

/-- C8: in a successful release build the CLI description is built once and
every emitter call consumes that same value, unchanged: the call trace
pairs each of the three dialects with the one `build_cli` tree, so the tree
the third emission consumes equals the tree the first emission consumed. -/
theorem C8_cli_built_once_shared (w : World) (v : String) (o : OsStr)
    (hv : w.env "CARGO_PKG_VERSION" = some (.unicode v))
    (hp : w.env "PROFILE" = some (.unicode "release"))
    (ho : w.env "OUT_DIR" = some o)
    (hb : w.emitOk .Bash = true) (hz : w.emitOk .Zsh = true)
    (hps : w.emitOk .PowerShell = true) :
    (mainBuild w).cliTrace =
      [(.Bash, build_cli), (.Zsh, build_cli), (.PowerShell, build_cli)] ∧
    ((mainBuild w).cliTrace.map Prod.snd).getLast? =
      ((mainBuild w).cliTrace.map Prod.snd).head? := by
  have ht : (mainBuild w).cliTrace =
      [(.Bash, build_cli), (.Zsh, build_cli), (.PowerShell, build_cli)] := by
    simp [mainBuild, generate_cargo_keys, envVar, hv, hp, ho, generate_to,
      wellFormed_build_cli, hb, hz, hps]
  rw [ht]
  exact ⟨rfl, rfl⟩

theorem C8_witness :
    (mainBuild wRelease).cliTrace =
      [(.Bash, build_cli), (.Zsh, build_cli), (.PowerShell, build_cli)] :=
  (C8_cli_built_once_shared wRelease "1.2.3" (OsStr.unicode "/tmp/out")
    rfl rfl rfl rfl rfl rfl).1

end Shed
